import Mathlib

/-!
Verification of the LinkedIn Zip/Trail game bot (`src/linkedin-zip-bot.js`).

The JavaScript source is shallowly embedded below.  Pure functions of the
source become Lean functions; the browser environment (Performance API
entries, DOM queries, the `window.fetch` slot, wall-clock time during
polling loops) is passed in explicitly as environment records, and the
observable effects of a run (dispatched input events, the final identity of
`window.fetch`, emitted diagnostics) are returned explicitly as result
records.  JavaScript numbers holding cell indices, grid sizes and times are
embedded as `Nat` (they are small non-negative integers in the source);
coordinate deltas are embedded as `Int`.  A JavaScript value that may be
`undefined` is embedded as an `Option`; a synchronously thrown exception is
an explicit error outcome.
-/

namespace ZipBot

/-- The four arrow keys used by the input driver
(`'ArrowUp' | 'ArrowDown' | 'ArrowLeft' | 'ArrowRight'` in the source). -/
inductive Key where
  | arrowUp
  | arrowDown
  | arrowLeft
  | arrowRight
deriving DecidableEq, Repr

/-- The `keyCode` field the source puts on its synthetic keyboard events:
`key === 'ArrowUp' ? 38 : key === 'ArrowDown' ? 40 : key === 'ArrowLeft' ? 37 : 39`. -/
def keyCode : Key → Nat
  | .arrowUp => 38
  | .arrowDown => 40
  | .arrowLeft => 37
  | .arrowRight => 39

/-- Result of `indexToCoords`: the `{row, col}` object. -/
structure Coords where
  row : Nat
  col : Nat
deriving DecidableEq, Repr

/-- `indexToCoords(index)` (source line 265): `row = Math.floor(index / gridSize)`,
`col = index % gridSize`.  `this.gridSize` is passed explicitly. -/
def indexToCoords (index gridSize : Nat) : Coords :=
  { row := index / gridSize, col := index % gridSize }

/-- `toCoords.row - fromCoords.row` computed in `getDirection` (line 344). -/
def rowDiff (fromCell toCell gridSize : Nat) : Int :=
  ((indexToCoords toCell gridSize).row : Int) - ((indexToCoords fromCell gridSize).row : Int)

/-- `toCoords.col - fromCoords.col` computed in `getDirection` (line 345). -/
def colDiff (fromCell toCell gridSize : Nat) : Int :=
  ((indexToCoords toCell gridSize).col : Int) - ((indexToCoords fromCell gridSize).col : Int)

/-- `getDirection(fromCell, toCell)` (source lines 340-353): returns the arrow
key for a unit orthogonal step, `null` (here `none`) for any other delta. -/
def getDirection (fromCell toCell gridSize : Nat) : Option Key :=
  if rowDiff fromCell toCell gridSize = -1 ∧ colDiff fromCell toCell gridSize = 0 then
    some .arrowUp
  else if rowDiff fromCell toCell gridSize = 1 ∧ colDiff fromCell toCell gridSize = 0 then
    some .arrowDown
  else if rowDiff fromCell toCell gridSize = 0 ∧ colDiff fromCell toCell gridSize = -1 then
    some .arrowLeft
  else if rowDiff fromCell toCell gridSize = 0 ∧ colDiff fromCell toCell gridSize = 1 then
    some .arrowRight
  else
    none

/-- The sequence of directions the `solvePuzzle` loop (lines 422-433) computes
over the consecutive pairs of a solution list. -/
def movesOfSolution (gridSize : Nat) : List Nat → List (Option Key)
  | a :: b :: rest => getDirection a b gridSize :: movesOfSolution gridSize (b :: rest)
  | _ => []

/-! ### String helpers

JavaScript's `String.prototype.includes` and the `new URL(...)` path/query
decomposition, embedded over the character list of a Lean `String`. -/

/-- Whether `p` is a prefix of `l` (character-by-character comparison). -/
def startsWithL : List Char → List Char → Bool
  | [], _ => true
  | _ :: _, [] => false
  | a :: as, b :: bs => a = b && startsWithL as bs

/-- Whether `sub` occurs contiguously inside `l`. -/
def includesL (sub : List Char) : List Char → Bool
  | [] => startsWithL sub []
  | c :: rest => startsWithL sub (c :: rest) || includesL sub rest

/-- JavaScript `s.includes(sub)`. -/
def strIncludes (s sub : String) : Bool :=
  includesL sub.data s.data

/-- Split a character list at every occurrence of `c` (like JS `split`). -/
def splitOnChar (c : Char) : List Char → List (List Char)
  | [] => [[]]
  | x :: xs =>
    match splitOnChar c xs with
    | [] => if x = c then [[], []] else [[x]]
    | y :: ys => if x = c then [] :: y :: ys else (x :: y) :: ys

/-- Re-join chunks with `'/'` separators. -/
def joinSlash : List (List Char) → List Char
  | [] => []
  | [x] => x
  | x :: y :: ys => x ++ '/' :: joinSlash (y :: ys)

/-- `new URL(name); url.pathname + url.search` (source lines 141-142) for an
absolute `http(s)` URL without a fragment: everything from the third `/` on.
The browser's URL parser is a host primitive; this models its effect on the
well-formed absolute URLs the Performance API reports. -/
def urlPathQuery (s : String) : String :=
  ⟨'/' :: joinSlash ((splitOnChar '/' s.data).drop 3)⟩

/-! ### Endpoint Discoverer (`detectApiUrl`, `findGameApiUrl`, lines 18-83, 122-152) -/

/-- The match filter used both by the passive scan (lines 134-137) and by the
fetch wrapper (lines 41-43): the URL must contain both the resource path
marker and the puzzle-type marker. -/
def gameApiFilter (url : String) : Bool :=
  strIncludes url "/voyager/api/graphql" && strIncludes url "gameTypeId:6"

/-- An argument passed to `window.fetch` during the observation window: the
wrapper only inspects it when `typeof url === 'string'` (line 41); a
`Request`-object argument is `nonStr`. -/
inductive FetchArg where
  | str (url : String)
  | nonStr
deriving DecidableEq, Repr

/-- The URLs the wrapper pushes onto `capturedUrls` (lines 37-49): the string
arguments flowing through `window.fetch` during the window that pass the
filter, in call order. -/
def wrapperCaptures (args : List FetchArg) : List String :=
  args.filterMap fun a =>
    match a with
    | .str url => if gameApiFilter url then some url else none
    | .nonStr => none

/-- The browser-context inputs a `detectApiUrl` run observes. -/
structure DiscoveryEnv where
  /-- `performance.getEntriesByType('resource')` entry names (absolute URLs);
  `none` models the Performance API itself throwing (caught at line 148). -/
  perfEntries : Option (List String)
  /-- whether `document.querySelector('[data-test-id="refresh-button"]')` finds
  an element (line 53). -/
  refreshButtonPresent : Bool
  /-- `textContent` of each element of `document.querySelectorAll('button')`
  (lines 58-64), in document order. -/
  buttonTexts : List String
  /-- whether locating/activating the refresh-or-play affordance (lines 53-65)
  throws synchronously.  The page is third-party JavaScript: its handlers and
  (possibly monkey-patched) DOM accessors run inside this region, so a throw
  here is a reachable execution; the source wraps none of it in try/catch. -/
  clickThrows : Bool
  /-- the arguments of the `window.fetch` calls the page issues during the
  3-second observation window, in call order. -/
  windowArgs : List FetchArg

/-- `findGameApiUrl()` (lines 122-152): scan the resource-timing log for a
matching entry and return its path+query, `null` (`none`) otherwise; any
exception from the Performance API is caught and yields `null`. -/
def findGameApiUrl (env : DiscoveryEnv) : Option String :=
  match env.perfEntries with
  | none => none
  | some entries =>
    match entries.find? gameApiFilter with
    | some entry => some (urlPathQuery entry)
    | none => none

/-- The identity of the function stored in the `window.fetch` slot. -/
inductive FetchFn where
  | original
  | wrapper
deriving DecidableEq, Repr

/-- How the promise returned by `detectApiUrl` settles. -/
inductive DetectResult where
  | resolved (url : String)
  | rejected
deriving DecidableEq, Repr

/-- Observable outcome of one `detectApiUrl` run. -/
structure DetectOutcome where
  /-- how the returned promise settles. -/
  result : DetectResult
  /-- what `window.fetch` holds once the promise has settled. -/
  finalFetch : FetchFn
  /-- whether the interception wrapper was ever installed (line 37). -/
  wrapperInstalled : Bool
  /-- whether a refresh/play affordance was activated (lines 53-65). -/
  affordanceClicked : Bool
  /-- how many times `window.fetch = originalFetch` (line 70) ran. -/
  restoreCount : Nat
deriving DecidableEq, Repr

/-- Whether the affordance-activation block (lines 53-65) clicks something:
the explicit refresh button if present, otherwise the first button whose text
contains `"Refresh"` or `"Play"`. -/
def affordanceClick (env : DiscoveryEnv) : Bool :=
  env.refreshButtonPresent ||
    env.buttonTexts.any fun t => strIncludes t "Refresh" || strIncludes t "Play"

/-- The URL the constructor assigns to `this.apiUrl` (line 8). -/
def initialApiUrl : String :=
  "/voyager/api/graphql?includeWebMetadata=true&variables=(gameTypeId:6)&queryId=voyagerIdentityDashGames.b13494b14a45c551e881ca8aa820dff0"

/-- The hardcoded fallback URL `detectApiUrl` resolves with when nothing is
captured (line 79). -/
def fallbackApiUrl : String :=
  "/voyager/api/graphql?includeWebMetadata=true&variables=(gameTypeId:6)&queryId=voyagerIdentityDashGames.b13494b14a45c551e881ca8aa820dff0"

/-- `detectApiUrl()` (lines 18-83).  Passive scan first (lines 22-27); if it
hits, return immediately with no wrapper.  Otherwise install the fetch
wrapper (line 37), activate a refresh/play affordance (lines 53-65) — if that
region throws, the promise executor throws, the promise rejects, and the
`setTimeout` restoring `window.fetch` is never scheduled — then after the
3-second window restore `window.fetch` (line 70) and resolve with the first
captured URL or the hardcoded fallback (lines 72-80). -/
def detectApiUrl (env : DiscoveryEnv) : DetectOutcome :=
  match findGameApiUrl env with
  | some url =>
    { result := .resolved url, finalFetch := .original, wrapperInstalled := false,
      affordanceClicked := false, restoreCount := 0 }
  | none =>
    if env.clickThrows then
      { result := .rejected, finalFetch := .wrapper, wrapperInstalled := true,
        affordanceClicked := false, restoreCount := 0 }
    else
      match wrapperCaptures env.windowArgs with
      | url :: _ =>
        { result := .resolved url, finalFetch := .original, wrapperInstalled := true,
          affordanceClicked := affordanceClick env, restoreCount := 1 }
      | [] =>
        { result := .resolved fallbackApiUrl, finalFetch := .original, wrapperInstalled := true,
          affordanceClicked := affordanceClick env, restoreCount := 1 }

/-! ### Puzzle Retriever (`fetchPuzzle`, lines 187-228)

The JSON response envelope is embedded structurally; a JSON field that may be
absent (`undefined` on access) is an `Option`.  A property access on
`undefined` throws a `TypeError`, which the `catch` at line 224 logs and
rethrows; the spec's error taxonomy calls every such extraction failure a
`RetrievalError` of kind `MalformedResponse`. -/

/-- The `trailGamePuzzle` sub-object.  Its fields are read at lines 215-221;
any of them may be missing from the response. -/
structure TrailPuzzle where
  gridSize : Option Nat
  solution : Option (List Nat)
  orderedSequence : Option (List Nat)
deriving DecidableEq, Repr

/-- The `gamePuzzle` puzzle-container field of an `included` entry. -/
structure GameContainer where
  trailGamePuzzle : Option TrailPuzzle
deriving DecidableEq, Repr

/-- One element of the response's `included` list. -/
structure IncludedEntry where
  gamePuzzle : Option GameContainer
deriving DecidableEq, Repr

/-- The parsed response body `data` (line 210). -/
structure ResponseData where
  included : Option (List IncludedEntry)
deriving DecidableEq, Repr

/-- The error taxonomy of the retriever: `httpError` for a non-ok status
(lines 204-208), `malformedResponse` for a `TypeError` thrown while walking
the envelope (lines 213-221). -/
inductive RetrievalError where
  | httpError (status : Nat) (body : String)
  | malformedResponse
deriving DecidableEq, Repr

/-- What `fetchPuzzle` has stored once it returns: `this.gridSize`,
`this.solution`, and the puzzle's `orderedSequence`.  `gridSize` stays an
`Option` because the source assigns it (line 215) without ever forcing it:
a missing `gridSize` leaves `this.gridSize = undefined` with no throw.
`solution` is forced: line 220 reads `this.solution.length`, which throws on
`undefined`. -/
structure ExtractedPuzzle where
  gridSize : Option Nat
  solution : List Nat
  orderedSequence : Option (List Nat)
deriving DecidableEq, Repr

/-- The envelope walk of lines 213-221:
`data.included[0]` (throws if `included` is missing or empty),
`gameData.gamePuzzle.trailGamePuzzle` (throws if `gamePuzzle` is missing),
`this.puzzle.gridSize` (throws if `trailGamePuzzle` is missing),
`this.solution.length` in the log at line 220 (throws if `solution` is
missing).  A present `trailGamePuzzle` with a missing `gridSize` does NOT
throw: the access chain never dereferences `gridSize` itself. -/
def extractPuzzle (data : ResponseData) : Except RetrievalError ExtractedPuzzle :=
  match data.included with
  | none => .error .malformedResponse
  | some entries =>
    match entries.head? with
    | none => .error .malformedResponse
    | some entry =>
      match entry.gamePuzzle with
      | none => .error .malformedResponse
      | some container =>
        match container.trailGamePuzzle with
        | none => .error .malformedResponse
        | some puzzle =>
          match puzzle.solution with
          | none => .error .malformedResponse
          | some sol => .ok { gridSize := puzzle.gridSize, solution := sol,
                              orderedSequence := puzzle.orderedSequence }

/-- The response the one GET request produces: `ok`/`status`/body text
(lines 204-207) and the parsed JSON body (line 210). -/
structure HttpResponse where
  ok : Bool
  status : Nat
  body : String
  data : ResponseData

/-- `fetchPuzzle()` (lines 187-228): a non-ok status is thrown as
`HTTP <status>: <body>` (lines 204-208); on success the envelope walk runs. -/
def fetchPuzzle (resp : HttpResponse) : Except RetrievalError ExtractedPuzzle :=
  if resp.ok = false then .error (.httpError resp.status resp.body)
  else extractPuzzle resp.data

/-! ### Input Driver (`waitForGameBoard`, `simulateKeyPress`, `solvePuzzle`,
lines 88-119, 358-381, 386-454)

The DOM is time-dependent while the driver polls for readiness, so the board
environment is a family of snapshots indexed by elapsed milliseconds; time
advances only across `sleep` waits (the only suspension points).  Input
events dispatched against the page are collected in order. -/

/-- A synthetic input event dispatched by the driver, plus the focus call. -/
inductive Ev where
  | focus
  | click (cellIdx : Nat)
  | keydown (key : Key)
  | keyup (key : Key)
deriving DecidableEq, Repr

/-- Whether an event is a keyboard event. -/
def isKeyEv : Ev → Bool
  | .keydown _ => true
  | .keyup _ => true
  | _ => false

/-- Whether an event is an activation (click). -/
def isClickEv : Ev → Bool
  | .click _ => true
  | _ => false

/-- The number of keyboard events in a dispatched-event list. -/
def keyCount (evs : List Ev) : Nat :=
  (evs.filter isKeyEv).length

/-- Terminal state of a `solvePuzzle` run, keyed to the source's diagnostics:
`noSolution` = "No solution loaded" (line 388), `boardNotFound` = "Game board
not found!" (line 400), `startCellNotFound` = "Start cell not found!"
(line 413), `pathError` = "Invalid move from _ to _ - not adjacent!" followed
by `break` (lines 427-430; the spec's `PathIntegrityError`), `completed` =
the loop ran through every consecutive pair. -/
inductive SolveOutcome where
  | noSolution
  | boardNotFound
  | startCellNotFound
  | pathError (fromCell toCell : Nat)
  | completed
deriving DecidableEq, Repr

/-- `simulateKeyPress(key)` (lines 358-381), parameterized by whether
`document.querySelector('[data-trail-grid]')` finds the grid: absent grid
means `return false` with no dispatch; otherwise a keydown then a keyup are
dispatched against it and `true` is returned. -/
def simulateKeyPress (gridPresent : Bool) (key : Key) : Bool × List Ev :=
  if gridPresent then (true, [.keydown key, .keyup key]) else (false, [])

/-- The arrow-key loop of `solvePuzzle` (lines 422-441): for each consecutive
pair compute the direction; `null` logs the invalid-move error and `break`s
(no keypress for that pair, no later iterations); otherwise dispatch the
keypress — its boolean result is ignored — and continue. -/
def runSteps (gridSize : Nat) (gridPresent : Bool) : Nat → List Nat → List Ev × SolveOutcome
  | _, [] => ([], .completed)
  | prev, c :: rest =>
    match getDirection prev c gridSize with
    | none => ([], .pathError prev c)
    | some key =>
      let r := runSteps gridSize gridPresent c rest
      ((simulateKeyPress gridPresent key).2 ++ r.1, r.2)

/-- Position and endpoints of the first consecutive pair of the walked list
on which `getDirection` returns `none` (pairs are `(prev, head)`,
`(head, head.next)`, ...). -/
def firstBad (gridSize : Nat) : Nat → List Nat → Option (Nat × Nat × Nat)
  | _, [] => none
  | prev, c :: rest =>
    match getDirection prev c gridSize with
    | none => some (0, prev, c)
    | some _ =>
      match firstBad gridSize c rest with
      | none => none
      | some (j, a, b) => some (j + 1, a, b)

/-- The DOM surface `solvePuzzle` queries, as snapshots indexed by elapsed
milliseconds since the run started. -/
structure SolveEnv where
  /-- whether `document.querySelector('.trail-board')` finds the root
  container at time `t`. -/
  boardAt : Nat → Bool
  /-- the `data-cell-idx` values of the addressable cell elements present at
  time `t`. -/
  cellsAt : Nat → List Nat
  /-- whether `document.querySelector('[data-trail-grid]')` finds the grid
  during the stepping phase (held fixed over that phase). -/
  gridPresent : Bool

/-- The readiness predicate both checks of `waitForGameBoard` use
(lines 95, 108): root container present and at least one cell element. -/
def boardReady (env : SolveEnv) (t : Nat) : Bool :=
  env.boardAt t && !(env.cellsAt t).isEmpty

/-- The polling loop of `waitForGameBoard` (lines 104-115): while elapsed
time is below `timeout`, re-query; on a hit return `true`, else sleep 200ms.
Returns the result and the elapsed time at which the loop ended.  `fuel`
bounds the iteration count; callers pass enough fuel that only the timeout
check can end an unsuccessful wait. -/
def waitLoop (env : SolveEnv) (timeout : Nat) : Nat → Nat → Bool × Nat
  | 0, t => (false, t)
  | fuel + 1, t =>
    if timeout ≤ t then (false, t)
    else if boardReady env t then (true, t)
    else waitLoop env timeout fuel (t + 200)

/-- `waitForGameBoard(timeout)` (lines 88-119): an immediate pre-check
(lines 92-98), then the 200ms polling loop; returning `false` is accompanied
by the "Game board did not load within timeout" warning — the spec's
`BoardTimeout` diagnostic. -/
def waitForGameBoard (env : SolveEnv) (timeout : Nat) : Bool × Nat :=
  if boardReady env 0 then (true, 0)
  else waitLoop env timeout (timeout / 200 + 2) 0

/-- Observable outcome of one `solvePuzzle` run: the input events dispatched
against the page in order, the terminal state, and whether the
`BoardTimeout` warning was emitted by the readiness wait. -/
structure SolveResult where
  events : List Ev
  outcome : SolveOutcome
  timeoutWarned : Bool
deriving DecidableEq, Repr

/-- `solvePuzzle(speed)` (lines 386-454).  Empty/absent solution: early
return (lines 387-390).  Await `waitForGameBoard(10000)` — its boolean
result is discarded (line 396) — then re-query `.trail-board`: absent means
"Game board not found!" and return (lines 397-402).  Focus the board, settle
200ms, look up the cell element for `solution[0]`: absent means "Start cell
not found!" and return (lines 405-415).  Click it, settle 300ms, then run
the arrow-key loop.  The inter-step `speed` delay, the final 1.5s settle and
the advisory win-check (lines 440-453) dispatch no input events and are not
modelled beyond the loop itself. -/
def solvePuzzle (env : SolveEnv) (gridSize : Nat) (solution : List Nat) : SolveResult :=
  match solution with
  | [] => { events := [], outcome := .noSolution, timeoutWarned := false }
  | s0 :: rest =>
    let w := waitForGameBoard env 10000
    let warned := !w.1
    if env.boardAt w.2 = false then
      { events := [], outcome := .boardNotFound, timeoutWarned := warned }
    else
      if (env.cellsAt (w.2 + 200)).contains s0 = false then
        { events := [.focus], outcome := .startCellNotFound, timeoutWarned := warned }
      else
        let r := runSteps gridSize env.gridPresent s0 rest
        { events := .focus :: .click s0 :: r.1, outcome := r.2, timeoutWarned := warned }

/-! ### Concrete environments used as witnesses and counterexamples -/

/-- Discovery context with an empty resource-timing log, no refresh/play
affordance, a non-string fetch call during the window, and no exception. -/
def envFallback : DiscoveryEnv :=
  { perfEntries := some [], refreshButtonPresent := false, buttonTexts := [],
    clickThrows := false, windowArgs := [.nonStr] }

/-- Discovery context whose resource-timing log already holds a matching
game-API request. -/
def envPassive : DiscoveryEnv :=
  { perfEntries := some ["https://www.linkedin.com/voyager/api/graphql?q=(gameTypeId:6)"],
    refreshButtonPresent := true, buttonTexts := [], clickThrows := false,
    windowArgs := [.str "https://www.linkedin.com/voyager/api/graphql?w=(gameTypeId:6)"] }

/-- Discovery context with no passive match in which activating the
refresh/play affordance throws synchronously. -/
def envThrow : DiscoveryEnv :=
  { perfEntries := some [], refreshButtonPresent := true, buttonTexts := [],
    clickThrows := true, windowArgs := [] }

/-- Board context: board and the cells `0` and `2` of a 3×3 grid present
throughout, grid focus container present. -/
def envPair : SolveEnv :=
  { boardAt := fun _ => true, cellsAt := fun _ => [0, 2], gridPresent := true }

/-- Board context in which the root container is always present but the cell
elements only materialize at t = 10100ms — after the 10000ms readiness
timeout, before the cell lookup that follows the 200ms focus settle. -/
def envLateCells : SolveEnv :=
  { boardAt := fun _ => true, cellsAt := fun t => if t < 10100 then [] else [0, 1],
    gridPresent := true }

/-- Board context in which the board never appears at all. -/
def envNoBoard : SolveEnv :=
  { boardAt := fun _ => false, cellsAt := fun _ => [], gridPresent := true }

/-- Board context: board and cells of a 2×2 grid present, but no element
matches the `[data-trail-grid]` selector. -/
def envNoGrid : SolveEnv :=
  { boardAt := fun _ => true, cellsAt := fun _ => [0, 1, 2, 3], gridPresent := false }

/-- A success response whose `trailGamePuzzle` is missing its `gridSize`
field (all other fields of the traversal present). -/
def respNoGridSize : HttpResponse :=
  { ok := true, status := 200, body := "",
    data := ⟨some [⟨some ⟨some ⟨none, some [0], none⟩⟩⟩]⟩ }

/-- A fully well-formed success response for the 3×3 sample puzzle. -/
def respGood : HttpResponse :=
  { ok := true, status := 200, body := "",
    data := ⟨some [⟨some ⟨some ⟨some 3, some [0, 1, 4, 7, 8], some [0, 8]⟩⟩⟩]⟩ }

/-! ## Helper lemmas -/

/-- `id ↦ (id / N, id % N)` is injective: the two coordinates reconstruct the
identifier. -/
theorem coords_inj (a b N : Nat) (h1 : a / N = b / N) (h2 : a % N = b % N) : a = b := by
  have ha := Nat.div_add_mod a N
  have hb := Nat.div_add_mod b N
  rw [← ha, ← hb, h1, h2]

/-- Two cell identifiers are equal iff both coordinate deltas vanish. -/
theorem eq_iff_diffs (a b N : Nat) :
    a = b ↔ (rowDiff a b N = 0 ∧ colDiff a b N = 0) := by
  constructor
  · intro h
    subst h
    simp [rowDiff, colDiff]
  · rintro ⟨h1, h2⟩
    simp only [rowDiff, colDiff, indexToCoords] at h1 h2
    have e1 : a / N = b / N := by omega
    have e2 : a % N = b % N := by omega
    exact coords_inj a b N e1 e2

/-- Key events in a concatenation. -/
theorem keyCount_append (xs ys : List Ev) :
    keyCount (xs ++ ys) = keyCount xs + keyCount ys := by
  simp [keyCount, List.filter_append]

/-- One `simulateKeyPress` dispatches two key events when the grid is
present, none otherwise. -/
theorem keyCount_keypress (g : Bool) (k : Key) :
    keyCount (simulateKeyPress g k).2 = if g then 2 else 0 := by
  cases g <;> simp [simulateKeyPress, keyCount, isKeyEv]

/-- The focus call and the starting click contribute no key events. -/
theorem keyCount_head2 (s : Nat) (evs : List Ev) :
    keyCount (.focus :: .click s :: evs) = keyCount evs := by
  simp [keyCount, isKeyEv]

/-- If the walked list has a first bad pair at position `j`, the arrow-key
loop ends in the path-error state on exactly that pair and has dispatched
two key events per earlier pair (none at all when the grid is absent). -/
theorem runSteps_firstBad_some (N : Nat) (g : Bool) :
    ∀ (l : List Nat) (prev j a b : Nat), firstBad N prev l = some (j, a, b) →
      (runSteps N g prev l).2 = .pathError a b ∧
      keyCount (runSteps N g prev l).1 = if g then 2 * j else 0 := by
  intro l
  induction l with
  | nil =>
    intro prev j a b h
    simp [firstBad] at h
  | cons c rest ih =>
    intro prev j a b h
    cases hd : getDirection prev c N with
    | none =>
      rw [firstBad, hd] at h
      simp at h
      obtain ⟨rfl, rfl, rfl⟩ := h
      simp [runSteps, hd, keyCount]
    | some k =>
      rw [firstBad, hd] at h
      cases hfb : firstBad N c rest with
      | none =>
        rw [hfb] at h
        simp at h
      | some t =>
        obtain ⟨j2, a2, b2⟩ := t
        rw [hfb] at h
        simp at h
        obtain ⟨rfl, rfl, rfl⟩ := h
        obtain ⟨ih1, ih2⟩ := ih c j2 a2 b2 hfb
        constructor
        · simp [runSteps, hd, ih1]
        · simp only [runSteps, hd]
          rw [keyCount_append, keyCount_keypress, ih2]
          cases g <;> simp <;> omega

/-- If every consecutive pair of the walked list is adjacent, the arrow-key
loop runs to completion. -/
theorem runSteps_firstBad_none (N : Nat) (g : Bool) :
    ∀ (l : List Nat) (prev : Nat), firstBad N prev l = none →
      (runSteps N g prev l).2 = .completed := by
  intro l
  induction l with
  | nil => intro prev h; simp [runSteps]
  | cons c rest ih =>
    intro prev h
    cases hd : getDirection prev c N with
    | none => rw [firstBad, hd] at h; simp at h
    | some k =>
      rw [firstBad, hd] at h
      cases hfb : firstBad N c rest with
      | none => simp only [runSteps, hd]; exact ih c hfb
      | some t => rw [hfb] at h; obtain ⟨j2, a2, b2⟩ := t; simp at h

/-- With no `[data-trail-grid]` element, the arrow-key loop dispatches no
events at all. -/
theorem runSteps_no_grid (N : Nat) :
    ∀ (l : List Nat) (prev : Nat), (runSteps N false prev l).1 = [] := by
  intro l
  induction l with
  | nil => intro prev; simp [runSteps]
  | cons c rest ih =>
    intro prev
    cases hd : getDirection prev c N with
    | none => simp [runSteps, hd]
    | some k => simp [runSteps, hd, simulateKeyPress, ih c]

/-- A list containing the bad pair `(a, b)` after a prefix `fs` has a first
bad pair, at position at most `fs.length + 1`. -/
theorem firstBad_append_bad (N a b : Nat) (rest : List Nat) (hbad : getDirection a b N = none) :
    ∀ (fs : List Nat) (prev : Nat),
      ∃ j x y, firstBad N prev (fs ++ a :: b :: rest) = some (j, x, y) ∧ j ≤ fs.length + 1 := by
  intro fs
  induction fs with
  | nil =>
    intro prev
    cases hd : getDirection prev a N with
    | none => exact ⟨0, prev, a, by simp [firstBad, hd], by omega⟩
    | some k =>
      refine ⟨1, a, b, ?_, by omega⟩
      simp [firstBad, hd, hbad]
  | cons f2 fs2 ih =>
    intro prev
    cases hd : getDirection prev f2 N with
    | none => exact ⟨0, prev, f2, by simp [firstBad, hd], by omega⟩
    | some k =>
      obtain ⟨j, x, y, hfb, hle⟩ := ih f2
      refine ⟨j + 1, x, y, ?_, by simp only [List.length_cons]; omega⟩
      simp [firstBad, hd, hfb]

/-- An unsuccessful polling wait whose readiness predicate stays false below
the timeout ends, given enough fuel and a 200-aligned start below the
deadline, at a 200-aligned instant in `[timeout, timeout + 200)`. -/
theorem waitLoop_never (env : SolveEnv) (timeout : Nat)
    (hnever : ∀ u, u < timeout → boardReady env u = false) :
    ∀ (fuel t : Nat), timeout ≤ t + 200 * fuel → t < timeout + 200 → 200 ∣ t →
      ∃ tEnd, waitLoop env timeout fuel t = (false, tEnd) ∧
        timeout ≤ tEnd ∧ tEnd < timeout + 200 ∧ 200 ∣ tEnd := by
  intro fuel
  induction fuel with
  | zero =>
    intro t h1 h2 h3
    exact ⟨t, rfl, by omega, h2, h3⟩
  | succ fuel ih =>
    intro t h1 h2 h3
    by_cases hto : timeout ≤ t
    · exact ⟨t, by simp [waitLoop, hto], hto, h2, h3⟩
    · have hb : boardReady env t = false := hnever t (by omega)
      obtain ⟨tEnd, heq, h4, h5, h6⟩ := ih (t + 200) (by omega) (by omega) (by omega)
      exact ⟨tEnd, by simp [waitLoop, hto, hb, heq], h4, h5, h6⟩

/-- If the board is never ready up to 10200ms, the 10000ms readiness wait
returns `false` — the `BoardTimeout` warning — at exactly t = 10000ms. -/
theorem waitForGameBoard_timeout (env : SolveEnv)
    (hnever : ∀ u, u ≤ 10200 → boardReady env u = false) :
    waitForGameBoard env 10000 = (false, 10000) := by
  have h0 : boardReady env 0 = false := hnever 0 (by omega)
  obtain ⟨tEnd, heq, h1, h2, h3⟩ := waitLoop_never env 10000
      (fun u hu => hnever u (by omega)) (10000 / 200 + 2) 0 (by omega) (by omega) ⟨0, rfl⟩
  have he : tEnd = 10000 := by omega
  subst he
  simp [waitForGameBoard, h0, heq]

/-! ## Claims -/

/-- C7: for every valid cell identifier `id` (`0 ≤ id < gridSize²`, with
`gridSize` positive), `indexToCoords` returns `row = ⌊id / gridSize⌋` and
`col = id % gridSize`, and `row * gridSize + col = id`. -/
theorem indexToCoords_roundtrip (id gridSize : Nat)
    (hg : 0 < gridSize) (hid : id < gridSize * gridSize) :
    (indexToCoords id gridSize).row = id / gridSize ∧
    (indexToCoords id gridSize).col = id % gridSize ∧
    (indexToCoords id gridSize).row * gridSize + (indexToCoords id gridSize).col = id := by
  refine ⟨rfl, rfl, ?_⟩
  show id / gridSize * gridSize + id % gridSize = id
  rw [Nat.mul_comm]
  exact Nat.div_add_mod id gridSize

/-- Witness for C7 at `id = 7`, `gridSize = 5`. -/
theorem indexToCoords_roundtrip_w :
    0 < 5 ∧ 7 < 5 * 5 ∧
    ((indexToCoords 7 5).row = 7 / 5 ∧ (indexToCoords 7 5).col = 7 % 5 ∧
      (indexToCoords 7 5).row * 5 + (indexToCoords 7 5).col = 7) :=
  ⟨by decide, by decide, indexToCoords_roundtrip 7 5 (by decide) (by decide)⟩

/-- C8: for cell identifiers valid for grid size `N`, `getDirection a b N`
returns `none` iff `a = b`, or the Chebyshev distance between their
coordinates exceeds 1, or both the row delta and the column delta are
nonzero; otherwise it returns the unique Move for the unit orthogonal step:
`some` of each arrow exactly on the corresponding unit delta. -/
theorem getDirection_spec (a b N : Nat)
    (hN : 0 < N) (ha : a < N * N) (hb : b < N * N) :
    (getDirection a b N = none ↔
      (a = b ∨ 1 < max (rowDiff a b N).natAbs (colDiff a b N).natAbs ∨
        (rowDiff a b N ≠ 0 ∧ colDiff a b N ≠ 0))) ∧
    (getDirection a b N = some .arrowUp ↔ (rowDiff a b N = -1 ∧ colDiff a b N = 0)) ∧
    (getDirection a b N = some .arrowDown ↔ (rowDiff a b N = 1 ∧ colDiff a b N = 0)) ∧
    (getDirection a b N = some .arrowLeft ↔ (rowDiff a b N = 0 ∧ colDiff a b N = -1)) ∧
    (getDirection a b N = some .arrowRight ↔ (rowDiff a b N = 0 ∧ colDiff a b N = 1)) := by
  rw [eq_iff_diffs a b N, lt_max_iff]
  unfold getDirection
  split_ifs with h1 h2 h3 h4 <;>
    refine ⟨?_, ?_, ?_, ?_, ?_⟩ <;> simp <;> omega

/-- Witness for C8 at `a = 0`, `b = 1`, `N = 5` (an adjacent pair, col delta
`+1`: the None-characterization is falsified on both sides, and the Move
returned is exactly `ArrowRight`). -/
theorem getDirection_spec_w :
    0 < 5 ∧ 0 < 5 * 5 ∧ 1 < 5 * 5 ∧
    ((getDirection 0 1 5 = none ↔
      ((0 : Nat) = 1 ∨ 1 < max (rowDiff 0 1 5).natAbs (colDiff 0 1 5).natAbs ∨
        (rowDiff 0 1 5 ≠ 0 ∧ colDiff 0 1 5 ≠ 0))) ∧
    (getDirection 0 1 5 = some .arrowUp ↔ (rowDiff 0 1 5 = -1 ∧ colDiff 0 1 5 = 0)) ∧
    (getDirection 0 1 5 = some .arrowDown ↔ (rowDiff 0 1 5 = 1 ∧ colDiff 0 1 5 = 0)) ∧
    (getDirection 0 1 5 = some .arrowLeft ↔ (rowDiff 0 1 5 = 0 ∧ colDiff 0 1 5 = -1)) ∧
    (getDirection 0 1 5 = some .arrowRight ↔ (rowDiff 0 1 5 = 0 ∧ colDiff 0 1 5 = 1))) :=
  ⟨by decide, by decide, by decide,
    getDirection_spec 0 1 5 (by decide) (by decide) (by decide)⟩

/-- C9: for the solution `[0, 1, 2, 7, 12]` on a 5×5 grid, the directions
computed over consecutive pairs are exactly Right, Right, Down, Down, and
the arrow-key loop dispatches exactly the corresponding keydown/keyup
pairs. -/
theorem moves_of_sample_solution :
    movesOfSolution 5 [0, 1, 2, 7, 12] =
      [some .arrowRight, some .arrowRight, some .arrowDown, some .arrowDown] ∧
    runSteps 5 true 0 [1, 2, 7, 12] =
      ([.keydown .arrowRight, .keyup .arrowRight, .keydown .arrowRight, .keyup .arrowRight,
        .keydown .arrowDown, .keyup .arrowDown, .keydown .arrowDown, .keyup .arrowDown],
       .completed) := by
  exact ⟨by decide, by decide⟩

/-- C1: on a run where the passive scan finds no matching resource-timing
entry, the observation window elapses (i.e. the affordance-activation region
does not throw, so the restoring timer fires), and the wrapper captured no
matching URL, `detectApiUrl` resolves with the hardcoded fallback — the same
string the constructor assigns at line 8 — and `window.fetch` holds the
original primitive again by the time the promise settles. -/
theorem detectApiUrl_fallback (env : DiscoveryEnv)
    (hpassive : findGameApiUrl env = none)
    (hcap : wrapperCaptures env.windowArgs = [])
    (hrun : env.clickThrows = false) :
    (detectApiUrl env).result = .resolved fallbackApiUrl ∧
    fallbackApiUrl = initialApiUrl ∧
    (detectApiUrl env).finalFetch = .original := by
  simp [detectApiUrl, hpassive, hcap, hrun, fallbackApiUrl, initialApiUrl]

/-- Witness for C1: empty resource-timing log, no affordance, one non-string
fetch call during the window. -/
theorem detectApiUrl_fallback_w :
    findGameApiUrl envFallback = none ∧
    wrapperCaptures envFallback.windowArgs = [] ∧
    envFallback.clickThrows = false ∧
    ((detectApiUrl envFallback).result = .resolved fallbackApiUrl ∧
      fallbackApiUrl = initialApiUrl ∧
      (detectApiUrl envFallback).finalFetch = .original) :=
  ⟨by decide, by decide, by decide,
    detectApiUrl_fallback envFallback (by decide) (by decide) (by decide)⟩

/-- C2: evaluation of the model at the failing input.  On a run with no
passive match in which activating the refresh/play affordance throws
(lines 53-65 run unguarded inside the promise executor, after the wrapper
was installed at line 37 and before the restoring `setTimeout` at line 68 is
scheduled), the promise rejects — `detectApiUrl` raises — and `window.fetch`
is left holding the wrapper: zero restorations, contradicting "restored
exactly once on every exit path" and "never raise". -/
theorem detectApiUrl_leak_on_throw :
    detectApiUrl envThrow =
      { result := .rejected, finalFetch := .wrapper, wrapperInstalled := true,
        affordanceClicked := false, restoreCount := 0 } := by
  decide

/-- C3: whenever the passive scan finds a matching resource-timing entry,
`detectApiUrl` returns its path+query immediately: no wrapper is installed
around `window.fetch`, no refresh/play affordance is activated, and no
restoration ever needs to run. -/
theorem detectApiUrl_passive_fast_path (env : DiscoveryEnv) (url : String)
    (hpassive : findGameApiUrl env = some url) :
    detectApiUrl env =
      { result := .resolved url, finalFetch := .original, wrapperInstalled := false,
        affordanceClicked := false, restoreCount := 0 } := by
  simp [detectApiUrl, hpassive]

/-- Witness for C3: a resource-timing log already holding a matching game-API
request (and a window fetch call that would have matched, showing the active
path is genuinely skipped rather than trivially empty). -/
theorem detectApiUrl_passive_fast_path_w :
    findGameApiUrl envPassive = some "/voyager/api/graphql?q=(gameTypeId:6)" ∧
    detectApiUrl envPassive =
      { result := .resolved "/voyager/api/graphql?q=(gameTypeId:6)", finalFetch := .original,
        wrapperInstalled := false, affordanceClicked := false, restoreCount := 0 } :=
  ⟨by decide, detectApiUrl_passive_fast_path envPassive _ (by decide)⟩

/-- C4: if a solution contains a non-adjacent consecutive pair `(a, b)`
(`getDirection` returns `none`) and the run reaches the stepping phase, the
replay ends in the path-error state (the source's "Invalid move ... not
adjacent!" + `break`, the spec's `PathIntegrityError`), and the number of
key events dispatched is at most two per pair strictly before `(a, b)`: no
keypress is dispatched for that pair or any later pair. -/
theorem solvePuzzle_path_integrity (env : SolveEnv) (N : Nat)
    (front : List Nat) (a b : Nat) (rest : List Nat)
    (hbad : getDirection a b N = none)
    (hb0 : env.boardAt 0 = true)
    (hc0 : (env.cellsAt 0).isEmpty = false)
    (hstart : (env.cellsAt 200).contains ((front ++ a :: b :: rest).headD 0) = true) :
    (∃ c d, (solvePuzzle env N (front ++ a :: b :: rest)).outcome = SolveOutcome.pathError c d) ∧
    keyCount (solvePuzzle env N (front ++ a :: b :: rest)).events ≤ 2 * front.length := by
  have hready : boardReady env 0 = true := by simp [boardReady, hb0, hc0]
  have hw : waitForGameBoard env 10000 = (true, 0) := by simp [waitForGameBoard, hready]
  obtain ⟨s0, tail, hsol, j, x, y, hfb, hle⟩ :
      ∃ s0 tail, front ++ a :: b :: rest = s0 :: tail ∧
        ∃ j x y, firstBad N s0 tail = some (j, x, y) ∧ j ≤ front.length := by
    cases front with
    | nil =>
      exact ⟨a, b :: rest, rfl, 0, a, b, by simp [firstBad, hbad], by omega⟩
    | cons f fs =>
      obtain ⟨j, x, y, hfb, hle⟩ := firstBad_append_bad N a b rest hbad fs f
      exact ⟨f, fs ++ a :: b :: rest, rfl, j, x, y, hfb, by simp only [List.length_cons]; omega⟩
  obtain ⟨hout, hkc⟩ := runSteps_firstBad_some N env.gridPresent tail s0 j x y hfb
  rw [hsol] at hstart ⊢
  simp only [List.headD_cons] at hstart
  have hmem : s0 ∈ env.cellsAt 200 := by simpa using hstart
  refine ⟨⟨x, y, ?_⟩, ?_⟩
  · simp [solvePuzzle, hw, hb0, hmem, hout]
  · have h2 : keyCount (solvePuzzle env N (s0 :: tail)).events =
        if env.gridPresent then 2 * j else 0 := by
      simp [solvePuzzle, hw, hb0, hmem, keyCount_head2, hkc]
    rw [h2]
    cases env.gridPresent <;> simp <;> omega

/-- Witness for C4: the spec's own example, the pair `[0, 2]` on a 3×3 grid
as the whole solution: path error with zero key events. -/
theorem solvePuzzle_path_integrity_w :
    getDirection 0 2 3 = none ∧
    envPair.boardAt 0 = true ∧
    (envPair.cellsAt 0).isEmpty = false ∧
    (envPair.cellsAt 200).contains (([] ++ 0 :: 2 :: []).headD 0) = true ∧
    ((∃ c d, (solvePuzzle envPair 3 ([] ++ 0 :: 2 :: [])).outcome = SolveOutcome.pathError c d) ∧
      keyCount (solvePuzzle envPair 3 ([] ++ 0 :: 2 :: [])).events ≤ 2 * ([] : List Nat).length) :=
  ⟨by decide, rfl, by decide, by decide,
    solvePuzzle_path_integrity envPair 3 [] 0 2 [] (by decide) rfl (by decide) (by decide)⟩

/-- C5 counterexample: the claim "if the board never becomes ready within the
10000ms readiness timeout then the run aborts with the `BoardTimeout`
diagnostic and dispatches no click or key events" is false as stated.
`solvePuzzle` discards the boolean result of `waitForGameBoard` (line 396)
and re-queries the DOM afterwards, so in `envLateCells` — whose cell
elements appear only at t = 10100ms, strictly after the timeout, so the
board is never ready at any t ≤ 10000 (its cell list is empty below
t = 10100) — the wait times out and warns, yet the run then finds the board
and the start cell (at t = 10200, after the 200ms focus settle), clicks it,
dispatches the keypresses and completes. -/
theorem solvePuzzle_timeout_race_cx :
    ¬ ∀ (env : SolveEnv) (N s0 : Nat) (rest : List Nat),
        (∀ t, t ≤ 10000 → boardReady env t = false) →
        ((solvePuzzle env N (s0 :: rest)).timeoutWarned = true ∧
          ((solvePuzzle env N (s0 :: rest)).outcome = SolveOutcome.boardNotFound ∨
            (solvePuzzle env N (s0 :: rest)).outcome = SolveOutcome.startCellNotFound) ∧
          (solvePuzzle env N (s0 :: rest)).events.all
            (fun e => !isClickEv e && !isKeyEv e) = true) := by
  intro h
  have hc := h envLateCells 2 0 [1]
    (fun t ht => by simp [boardReady, envLateCells, show t < 10100 by omega])
  have hdone : (solvePuzzle envLateCells 2 (0 :: [1])).outcome = SolveOutcome.completed := by
    decide
  rcases hc.2.1 with h1 | h1 <;> rw [hdone] at h1 <;> exact SolveOutcome.noConfusion h1

/-- C5 (amended): if the board (root container together with at least one
cell element) is never ready through the readiness timeout **and the 200ms
focus-settle that follows it** (t ≤ 10200), and the root container, once
present, persists, then the run emits the `BoardTimeout` warning, ends in an
aborted state (board or start cell not found), does not raise, and
dispatches no click or key events. -/
theorem solvePuzzle_board_timeout (env : SolveEnv) (N s0 : Nat) (rest : List Nat)
    (hnever : ∀ t, t ≤ 10200 → boardReady env t = false)
    (hmono : ∀ t u, t ≤ u → env.boardAt t = true → env.boardAt u = true) :
    (solvePuzzle env N (s0 :: rest)).timeoutWarned = true ∧
    ((solvePuzzle env N (s0 :: rest)).outcome = SolveOutcome.boardNotFound ∨
      (solvePuzzle env N (s0 :: rest)).outcome = SolveOutcome.startCellNotFound) ∧
    (solvePuzzle env N (s0 :: rest)).events.all (fun e => !isClickEv e && !isKeyEv e) = true := by
  have hw := waitForGameBoard_timeout env hnever
  by_cases hb : env.boardAt 10000 = true
  · have hb2 : env.boardAt 10200 = true := hmono 10000 10200 (by omega) hb
    have hx := hnever 10200 (by omega)
    simp only [boardReady, hb2, Bool.true_and, Bool.not_eq_false'] at hx
    have hcells : env.cellsAt 10200 = [] := by
      cases hq : env.cellsAt 10200 with
      | nil => rfl
      | cons z zs => rw [hq] at hx; simp at hx
    refine ⟨?_, Or.inr ?_, ?_⟩ <;> simp [solvePuzzle, hw, hb, hcells, isClickEv, isKeyEv]
  · have hbf : env.boardAt 10000 = false := by
      cases hq : env.boardAt 10000 with
      | false => rfl
      | true => exact absurd hq hb
    refine ⟨?_, Or.inl ?_, ?_⟩ <;> simp [solvePuzzle, hw, hbf]

/-- Witness for C5 (amended): a board that never appears at all. -/
theorem solvePuzzle_board_timeout_w :
    (solvePuzzle envNoBoard 2 (0 :: [1])).timeoutWarned = true ∧
    ((solvePuzzle envNoBoard 2 (0 :: [1])).outcome = SolveOutcome.boardNotFound ∨
      (solvePuzzle envNoBoard 2 (0 :: [1])).outcome = SolveOutcome.startCellNotFound) ∧
    (solvePuzzle envNoBoard 2 (0 :: [1])).events.all (fun e => !isClickEv e && !isKeyEv e) = true :=
  solvePuzzle_board_timeout envNoBoard 2 0 [1] (fun t ht => rfl)
    (fun t u hle hb => by simp [envNoBoard] at hb)

/-- C10: `simulateKeyPress` with no `[data-trail-grid]` element dispatches
nothing and returns `false`, and `solvePuzzle` ignores that return value:
on an otherwise well-formed run whose grid element is absent, the loop still
walks every consecutive pair and the run completes — it is not aborted with
a missing-element error — with no key events dispatched (only the focus and
the starting click). -/
theorem simulateKeyPress_missing_grid (env : SolveEnv) (N s0 : Nat) (rest : List Nat)
    (hgrid : env.gridPresent = false)
    (hb0 : env.boardAt 0 = true)
    (hc0 : (env.cellsAt 0).isEmpty = false)
    (hstart : (env.cellsAt 200).contains s0 = true)
    (hgood : firstBad N s0 rest = none) :
    (∀ k, simulateKeyPress false k = (false, [])) ∧
    (solvePuzzle env N (s0 :: rest)).outcome = SolveOutcome.completed ∧
    (solvePuzzle env N (s0 :: rest)).events = [.focus, .click s0] := by
  have hready : boardReady env 0 = true := by simp [boardReady, hb0, hc0]
  have hw : waitForGameBoard env 10000 = (true, 0) := by simp [waitForGameBoard, hready]
  have hmem : s0 ∈ env.cellsAt 200 := by simpa using hstart
  have hout := runSteps_firstBad_none N env.gridPresent rest s0 hgood
  have hevs : (runSteps N env.gridPresent s0 rest).1 = [] := by
    rw [hgrid]
    exact runSteps_no_grid N rest s0
  refine ⟨fun k => rfl, ?_, ?_⟩
  · simp [solvePuzzle, hw, hb0, hmem, hout]
  · simp [solvePuzzle, hw, hb0, hmem, hevs]

/-- Witness for C10: the adjacent path `[0, 1, 3]` on a 2×2 grid with no
grid element. -/
theorem simulateKeyPress_missing_grid_w :
    envNoGrid.gridPresent = false ∧
    envNoGrid.boardAt 0 = true ∧
    (envNoGrid.cellsAt 0).isEmpty = false ∧
    (envNoGrid.cellsAt 200).contains 0 = true ∧
    firstBad 2 0 [1, 3] = none ∧
    ((∀ k, simulateKeyPress false k = (false, [])) ∧
      (solvePuzzle envNoGrid 2 (0 :: [1, 3])).outcome = SolveOutcome.completed ∧
      (solvePuzzle envNoGrid 2 (0 :: [1, 3])).events = [.focus, .click 0]) :=
  ⟨rfl, rfl, by decide, by decide, by decide,
    simulateKeyPress_missing_grid envNoGrid 2 0 [1, 3] rfl rfl (by decide) (by decide) (by decide)⟩

/-- C6 counterexample: the claim "every response envelope missing any field
along the traversal path makes `fetchPuzzle` fail with `MalformedResponse`"
is false: an envelope whose `trailGamePuzzle` is present but lacks its
`gridSize` field — one of the two fields the documented path ends in — is
accepted: `fetchPuzzle` succeeds silently, with `gridSize` left undefined
(the source assigns `this.gridSize = this.puzzle.gridSize` at line 215
without ever dereferencing it). -/
theorem fetchPuzzle_missing_gridSize_cx :
    respNoGridSize.ok = true ∧
    fetchPuzzle respNoGridSize =
      .ok { gridSize := none, solution := [0], orderedSequence := none } :=
  ⟨rfl, rfl⟩

/-- C6 (amended): on a success response the Puzzle is extracted by the fixed
traversal `included[0] → gamePuzzle → trailGamePuzzle`; `fetchPuzzle` raises
`MalformedResponse` exactly when that traversal or the `solution` field
(forced by the logging access `this.solution.length`, line 220) is missing —
but a missing `gridSize` alone does not make it fail: the retrieval then
silently succeeds with `gridSize` undefined. -/
theorem fetchPuzzle_extraction (resp : HttpResponse) (hok : resp.ok = true) :
    (∀ entries entry container puzzle sol,
        resp.data.included = some entries → entries.head? = some entry →
        entry.gamePuzzle = some container → container.trailGamePuzzle = some puzzle →
        puzzle.solution = some sol →
        fetchPuzzle resp = .ok { gridSize := puzzle.gridSize, solution := sol,
                                 orderedSequence := puzzle.orderedSequence }) ∧
    ((fetchPuzzle resp = .error .malformedResponse) ↔
      ¬ ∃ entries entry container puzzle sol,
          resp.data.included = some entries ∧ entries.head? = some entry ∧
          entry.gamePuzzle = some container ∧ container.trailGamePuzzle = some puzzle ∧
          puzzle.solution = some sol) := by
  have hF : fetchPuzzle resp = extractPuzzle resp.data := by simp [fetchPuzzle, hok]
  constructor
  · intro entries entry container puzzle sol h1 h2 h3 h4 h5
    rw [hF]
    simp [extractPuzzle, h1, h2, h3, h4, h5]
  · rw [hF]
    rcases hi : resp.data.included with _ | entries
    · simp [extractPuzzle, hi]
    · rcases he : entries.head? with _ | entry
      · simp [extractPuzzle, hi, he]
      · rcases hg : entry.gamePuzzle with _ | container
        · simp [extractPuzzle, hi, he, hg]
        · rcases ht : container.trailGamePuzzle with _ | puzzle
          · simp [extractPuzzle, hi, he, hg, ht]
          · rcases hs : puzzle.solution with _ | sol
            · simp [extractPuzzle, hi, he, hg, ht, hs]
            · simp [extractPuzzle, hi, he, hg, ht, hs]

/-- Witness for C6 (amended): the fully well-formed 3×3 sample envelope is
extracted along the documented traversal. -/
theorem fetchPuzzle_extraction_w :
    respGood.ok = true ∧
    fetchPuzzle respGood = .ok { gridSize := some 3, solution := [0, 1, 4, 7, 8],
                                 orderedSequence := some [0, 8] } :=
  ⟨rfl, (fetchPuzzle_extraction respGood rfl).1 _ _ _ _ _ rfl rfl rfl rfl rfl⟩

end ZipBot
